import Mathlib

/-!
Verification of the `blobstash.docstore` client (`blobstash/docstore/__init__.py`).

The Python module is shallowly embedded: every Python value that can occur in a
document is the inductive `PyVal` (dicts and lists are encoded as their spine,
`dnil`/`dcons` and `lnil`/`lcons`, value well-formedness being maintained by the
operations themselves); exceptions become `Except PyErr`; the process-wide
`_DOC_CACHE` and the in-place mutation of documents become explicit state
passing (an operation returns the new cache/document instead of mutating; when
an operation raises, the model returns only the error — no claim below inspects
the abandoned intermediate state).  The HTTP transport
(`blobstash.base.client.Client.request`) is an external collaborator, passed as
a function `Request → Except PyErr PyVal`; every operation additionally returns
the list of requests it issued.  `deepcopy` is the identity under value
semantics and is dropped.
-/

namespace Docstore

/-- The error conditions the embedded code can raise.  `missingIDError` and
`notADocumentError` are the module's own `MissingIDError` / `NotADocumentError`
(subclasses of `DocStoreError`); the rest are the Python built-ins the code can
hit (`KeyError`, `AttributeError`, `TypeError`, `UnboundLocalError`) and the
opaque transport failure carrying an HTTP status.  The module defines no
conflict-specific error: a `412 Precondition Failed` surfaces as
`transportError 412`. -/
inductive PyErr where
  | missingIDError
  | notADocumentError
  | keyError
  | attributeError
  | typeError
  | unboundLocalError
  | transportError (status : Int)
deriving DecidableEq

/-- A Python value as it can occur inside a document tree: JSON scalars, dicts
(as the `dnil`/`dcons` spine of their insertion-ordered string-keyed items),
lists (as the `lnil`/`lcons` spine of their elements), plus the two
module-level objects that live inside documents — `Attachment(pointer, node)`
(from `blobstash.docstore.attachment`, kept opaque: it pairs the
reference-token string with the raw node description) and `ID` objects, which
hold the four reserved attributes `_id`, `_created`, `_updated`, `_version` as
read by `data.get(...)` (so `pynone` models an absent attribute, exactly as
Python's `None`). -/
inductive PyVal where
  | pynone
  | pybool (b : Bool)
  | pyint (n : Int)
  | pystr (s : String)
  | dnil
  | dcons (key : String) (value : PyVal) (rest : PyVal)
  | lnil
  | lcons (head : PyVal) (tail : PyVal)
  | attachment (pointer : String) (node : PyVal)
  | docid (idv createdv updatedv versionv : PyVal)
deriving DecidableEq

deriving instance DecidableEq for Except

/-- `isinstance(v, dict)`. -/
def isDict : PyVal → Bool
  | .dnil => true
  | .dcons _ _ _ => true
  | _ => false

/-- `isinstance(v, list)`. -/
def isList : PyVal → Bool
  | .lnil => true
  | .lcons _ _ => true
  | _ => false

/-- `isinstance(v, ID)`. -/
def isDocId : PyVal → Bool
  | .docid _ _ _ _ => true
  | _ => false

/-- `d.get(key)` on a dict: the stored value, or `None` when the key is
absent.  (The dict operations walk the `dcons` spine; a non-dict tail — which
no value built by the embedded operations ever has — counts as the end.) -/
def PyVal.getd : PyVal → String → PyVal
  | .dcons k v rest, key => if k = key then v else rest.getd key
  | _, _ => .pynone

/-- `key in d` on a dict. -/
def PyVal.hasKey : PyVal → String → Bool
  | .dcons k _ rest, key => k = key || rest.hasKey key
  | _, _ => false

/-- `d[key]` on a dict, as an `Option` (callers turn `none` into
`KeyError`). -/
def PyVal.lookupKey : PyVal → String → Option PyVal
  | .dcons k v rest, key => if k = key then some v else rest.lookupKey key
  | _, _ => none

/-- `d[key] = v` on a dict: replaces the value of an existing key in place
(keeping its position), otherwise appends the pair — Python's insertion-order
semantics. -/
def PyVal.setKey : PyVal → String → PyVal → PyVal
  | .dcons k w rest, key, v =>
      if k = key then .dcons k v rest else .dcons k w (rest.setKey key v)
  | .dnil, key, v => .dcons key v .dnil
  | d, _, _ => d

/-- `del d[key]` on a dict (a no-op when the key is absent; every call site
in the source first establishes that the key is present). -/
def PyVal.delKey : PyVal → String → PyVal
  | .dcons k w rest, key => if k = key then rest else .dcons k w (rest.delKey key)
  | d, _ => d

/-- Python truthiness (`if x:`) for the embedded values. -/
def truthy : PyVal → Bool
  | .pynone => false
  | .pybool b => b
  | .pyint n => decide (n ≠ 0)
  | .pystr s => !s.isEmpty
  | .dnil => false
  | .dcons _ _ _ => true
  | .lnil => false
  | .lcons _ _ => true
  | .attachment _ _ => true
  | .docid _ _ _ _ => true

/-- Python `==` as used for dict-key identification in `_DOC_CACHE`:
`ID.__eq__`/`ID.__hash__` make two `ID`s interchangeable as keys iff
`(self._version, self._id) == (other.version(), other.id())`; an `ID` never
equals a non-`ID`; the remaining (hashable scalar) key values compare
structurally. -/
def pyKeyEq : PyVal → PyVal → Bool
  | .docid i1 _ _ v1, .docid i2 _ _ v2 => decide (v1 = v2) && decide (i1 = i2)
  | .docid _ _ _ _, _ => false
  | _, .docid _ _ _ _ => false
  | a, b => decide (a = b)

/-- The process-wide `_DOC_CACHE`, as an insertion-ordered key/value list
(keys compared with `pyKeyEq`, mirroring dict semantics over
`ID.__hash__`/`ID.__eq__`). -/
abbrev Cache := List (PyVal × PyVal)

/-- `_DOC_CACHE[key]` as an `Option`. -/
def cacheGet : Cache → PyVal → Option PyVal
  | [], _ => none
  | (k, v) :: rest, key => if pyKeyEq k key then some v else cacheGet rest key

/-- `key in _DOC_CACHE`. -/
def cacheHas (c : Cache) (key : PyVal) : Bool :=
  (cacheGet c key).isSome

/-- `_DOC_CACHE[key] = v` (Python keeps the originally inserted key object on
overwrite). -/
def cacheSet : Cache → PyVal → PyVal → Cache
  | [], key, v => [(key, v)]
  | (k, w) :: rest, key, v =>
      if pyKeyEq k key then (k, v) :: rest else (k, w) :: cacheSet rest key v

/-- `del _DOC_CACHE[key]` (call sites only delete after a successful
lookup). -/
def cacheDel : Cache → PyVal → Cache
  | [], _ => []
  | (k, w) :: rest, key =>
      if pyKeyEq k key then rest else (k, w) :: cacheDel rest key

/-- `ID.__init__(data)` followed by the rest of `ID.inject(data)`: builds the
`ID` from the four reserved keys (via `.get`, so absent means `None`),
deletes `_id`/`_created`/`_updated` from the body when truthy and `_version`
when not `None`, then stores the `ID` object back under `"_id"`.  Returns
the `ID` and the rewritten payload.  Called on a non-dict (no `.get`
attribute) it raises `AttributeError`. -/
def ID.inject (data : PyVal) : Except PyErr (PyVal × PyVal) :=
  if isDict data then
    let i : PyVal := .docid (data.getd "_id") (data.getd "_created")
      (data.getd "_updated") (data.getd "_version")
    let d1 := if truthy (data.getd "_id") then data.delKey "_id" else data
    let d2 := if truthy (data.getd "_created") then d1.delKey "_created" else d1
    let d3 := if truthy (data.getd "_updated") then d2.delKey "_updated" else d2
    let d4 := if data.getd "_version" ≠ .pynone then d3.delKey "_version" else d3
    .ok (i, d4.setKey "_id" i)
  else .error .attributeError

/-- `_Document.checkpoint`: raises `MissingIDError` when `self.get("_id")` is
`None`; otherwise, only when `_id` is not yet a `_DOC_CACHE` key, stores a
deep copy of the document body without its `"_id"` entry. -/
def checkpoint (cache : Cache) (doc : PyVal) : Except PyErr Cache :=
  match doc.getd "_id" with
  | .pynone => .error .missingIDError
  | idval =>
      if cacheHas cache idval then .ok cache
      else .ok (cacheSet cache idval (doc.delKey "_id"))

/-- `_Document.__setitem__`: every assignment to a key other than `"_id"`
first runs `checkpoint`, then performs the dict assignment. -/
def docSetItem (cache : Cache) (doc : PyVal) (key : String) (val : PyVal) :
    Except PyErr (Cache × PyVal) :=
  if key ≠ "_id" then
    match checkpoint cache doc with
    | .error e => .error e
    | .ok c => .ok (c, doc.setKey key val)
  else .ok (cache, doc.setKey key val)

/-- `json.loads(json.dumps(v, cls=JSONEncoder))`: the encoding used for
transmission.  `JSONEncoder.default` turns an `Attachment` into its
`pointer` (its reference token); dicts, lists and JSON scalars survive the
round trip unchanged; an `ID` is not JSON-serializable, so `json.dumps`
raises `TypeError`. -/
def jsonRoundTrip : PyVal → Except PyErr PyVal
  | .dcons k v rest =>
      match jsonRoundTrip v with
      | .error e => .error e
      | .ok v' =>
          match jsonRoundTrip rest with
          | .error e => .error e
          | .ok rest' => .ok (.dcons k v' rest')
  | .lcons x rest =>
      match jsonRoundTrip x with
      | .error e => .error e
      | .ok x' =>
          match jsonRoundTrip rest with
          | .error e => .error e
          | .ok rest' => .ok (.lcons x' rest')
  | .attachment p _ => .ok (.pystr p)
  | .docid _ _ _ _ => .error .typeError
  | v => .ok v

/-- One JSON-Patch operation, addressed by path. -/
inductive PatchOp where
  | add (path : String) (value : PyVal)
  | remove (path : String)
  | replace (path : String) (value : PyVal)
deriving DecidableEq

/-- Keys present in the destination dict `dst` but absent from the source
dict walk become `add` operations (part of `make_patch`, see `diffAt`). -/
def addedKeys (path : String) (src : PyVal) : PyVal → List PatchOp
  | .dcons k v rest =>
      (if src.hasKey k then [] else [.add (path ++ "/" ++ k) v]) ++
        addedKeys path src rest
  | _ => []

/-- Modelled from the spec: `jsonpatch.make_patch` is an external library
dependency whose code is not part of this repository; the spec describes it
as computing "a structural diff (a sequence of add/remove/replace operations
addressed by path) between baseline and current body".  `valuePos = true`
compares one source value against one destination value at `path`: two dicts
are diffed key by key (shared keys recursively, keys only in the source as
`remove`, keys only in the destination as `add`), and any other pair of
differing values becomes a `replace` of the whole value at its path — equal
values yield no operation, so the diff of a value against itself is empty.
`valuePos = false` walks the remaining source-dict spine against the whole
destination dict `d`. -/
def diffAt : Bool → String → PyVal → PyVal → List PatchOp
  | true, path, .dcons k v rest, d =>
      if isDict d then
        (if d.hasKey k then diffAt true (path ++ "/" ++ k) v (d.getd k)
         else [.remove (path ++ "/" ++ k)]) ++
          diffAt false path rest d ++ addedKeys path (.dcons k v rest) d
      else if PyVal.dcons k v rest = d then [] else [.replace path d]
  | true, path, .dnil, d =>
      if isDict d then addedKeys path .dnil d
      else if PyVal.dnil = d then [] else [.replace path d]
  | true, path, s, d => if s = d then [] else [.replace path d]
  | false, path, .dcons k v rest, d =>
      (if d.hasKey k then diffAt true (path ++ "/" ++ k) v (d.getd k)
       else [.remove (path ++ "/" ++ k)]) ++ diffAt false path rest d
  | false, _, _, _ => []

/-- `jsonpatch.make_patch(src, dst)` (see `diffAt`). -/
def make_patch (src dst : PyVal) : List PatchOp :=
  diffAt true "" src dst

/-- The update payload as the CLAIM words it: both the baseline and the
current body are serialized "through the same encoding used for attachment
handles" before the structural diff is taken.  Stated for comparison with
what `Collection.update` actually computes (`make_patch src pdoc`, where
`src` is the cached baseline as stored, not re-encoded). -/
def specDiffPayload (src cur : PyVal) : Except PyErr (List PatchOp) :=
  match jsonRoundTrip src with
  | .error e => .error e
  | .ok src' =>
      match jsonRoundTrip cur with
      | .error e => .error e
      | .ok cur' => .ok (make_patch src' cur')

/-- `v.startswith("@filetree/ref:")` on strings: the reference-token test
(stated over the underlying character list, which is how the embedding
computes on strings). -/
def isRef (s : String) : Bool :=
  "@filetree/ref:".data.isPrefixOf s.data

/-- The recursive worker of `_fill_pointers(doc, pointers)`, indexed by the
position of the visited value.  `valuePos = true` is the position of a dict
value (the `for k, v in doc.items()` loop): a reference-token string is
replaced by `Attachment(v, Node.from_resp(pointers[v]))` — `pointers[v]`
raising `KeyError` when the token is absent, the node description kept as
the raw looked-up value since `Node.from_resp` is opaque external code; a
dict is recursed into; a list is rebuilt by the source's comprehension
(token-string elements replaced, `valuePos = false`) followed by a
`_fill_pointers` sweep over the rebuilt elements.  `valuePos = false` is the
position of a list element after that comprehension: the sweep returns
immediately on everything except dicts — in particular on the freshly built
attachments and on lists nested inside lists, which are left untouched — and
the comprehension only touches token strings, so visiting each element once
(token strings replaced, dicts recursed into, everything else untouched)
yields the identical result and the identical error behaviour (the only
error either phase can raise is the payload-free `KeyError`). -/
def fillVisit (P : PyVal) : Bool → PyVal → Except PyErr PyVal
  | _, .pystr s =>
      if isRef s then
        match P.lookupKey s with
        | some nd => .ok (.attachment s nd)
        | none => .error .keyError
      else .ok (.pystr s)
  | valuePos, .dcons k v rest =>
      match fillVisit P true v with
      | .error e => .error e
      | .ok v' =>
          match fillVisit P valuePos rest with
          | .error e => .error e
          | .ok rest' => .ok (.dcons k v' rest')
  | true, .lcons x rest =>
      match fillVisit P false x with
      | .error e => .error e
      | .ok x' =>
          match fillVisit P true rest with
          | .error e => .error e
          | .ok rest' => .ok (.lcons x' rest')
  | false, .lcons x rest => .ok (.lcons x rest)
  | _, v => .ok v

/-- `_fill_pointers(doc, pointers)`: returns immediately on anything that is
not a dict; on a dict, rewrites every entry in place (see `fillVisit`). -/
def fill_pointers (P doc : PyVal) : Except PyErr PyVal :=
  if isDict doc then fillVisit P true doc else .ok doc

/-- No reference-token string survives in a position that `_fill_pointers`
visits, the position index meaning the same as in `fillVisit`: string
values of dicts (at any dict-recursion depth) and string elements of
dict-valued lists are checked, dicts are recursed into, and the inside of a
list nested within a list is not visited at all. -/
def resolvedVisit : Bool → PyVal → Bool
  | _, .pystr s => !isRef s
  | valuePos, .dcons _ v rest => resolvedVisit true v && resolvedVisit valuePos rest
  | true, .lcons x rest => resolvedVisit false x && resolvedVisit true rest
  | false, .lcons _ _ => true
  | _, _ => true

/-- Resolvedness of a whole document (see `resolvedVisit`; a non-dict is
never entered by `_fill_pointers`). -/
def docResolved (doc : PyVal) : Bool :=
  if isDict doc then resolvedVisit true doc else true

/-- Some position that `_fill_pointers` visits (same positions as
`resolvedVisit`) holds a reference-token string with no entry in the
side-table `P` — the situation in which the resolver raises `KeyError`. -/
def missingVisit (P : PyVal) : Bool → PyVal → Bool
  | _, .pystr s => isRef s && (P.lookupKey s).isNone
  | valuePos, .dcons _ v rest => missingVisit P true v || missingVisit P valuePos rest
  | true, .lcons x rest => missingVisit P false x || missingVisit P true rest
  | false, .lcons _ _ => false
  | _, _ => false

/-- Missing-token test for a whole document (see `missingVisit`). -/
def docMissing (P doc : PyVal) : Bool :=
  if isDict doc then missingVisit P true doc else false

/-- A raw reference-token string occurs somewhere in the tree, at any depth,
as a dict value or a list element. -/
def containsRef : PyVal → Bool
  | .pystr s => isRef s
  | .dcons _ v rest => containsRef v || containsRef rest
  | .lcons x rest => containsRef x || containsRef rest
  | _ => false

/-- One HTTP request as handed to the transport collaborator
`self._client.request(method, path, headers=…, json=…, data=…)`.  `json` is
a structured body (the client serializes it with `JSONEncoder`); `data` is
the pre-serialized JSON-Patch body (`p.to_string()` serializes exactly the
operation list, which the model keeps structured). -/
structure Request where
  method : String
  path : String
  headers : List (String × PyVal)
  json : Option PyVal
  data : Option (List PatchOp)
deriving DecidableEq

/-- The transport collaborator: maps a request to a parsed JSON response or
to the error it raises (network failure, HTTP error status, …). -/
abbrev Client := Request → Except PyErr PyVal

/-- The post-response block that `Collection.insert` (lines 283–291) and both
branches of `Collection.update` (lines 313–318 and 327–332) repeat verbatim:
`doc_id = ID.inject(resp); doc["_id"] = doc_id; rdoc = doc.copy();
del rdoc["_id"]; _DOC_CACHE[doc_id] = deepcopy(rdoc); return doc_id`.
`cache` is the cache state at that point (already stripped of the consumed
baseline on the diff path) and `doc` the document body the block starts
from.  Returns the new cache, the mutated document, and `doc_id`. -/
def finishReq (cache : Cache) (doc : PyVal) (resp : PyVal) :
    Except PyErr (Cache × PyVal × PyVal) :=
  match ID.inject resp with
  | .error e => .error e
  | .ok (doc_id, _) =>
      let doc2 := doc.setKey "_id" doc_id
      let rdoc := doc2.delKey "_id"
      .ok (cacheSet cache doc_id rdoc, doc2, doc_id)

/-- `Collection.update(doc)`: reads `doc.get("_id")` (`AttributeError` on a
non-dict, which has no `.get`; `MissingIDError` on `None`), deletes `"_id"`
from the body, then — if the id value is a `_DOC_CACHE` key — encodes the
current body with the `JSONEncoder` round trip, computes
`jsonpatch.make_patch` from the cached baseline (used exactly as stored) to
that encoding, deletes the cache entry and PATCHes the diff with an
`If-Match: version` header; otherwise POSTs the full body under the same
header.  Both branches finish with the shared `finishReq` block.  Building
the request path (`"…/" + _id.id()`) raises `AttributeError` when the id
value is not an `ID` and `TypeError` when its `_id` attribute is not a
string.  Returns the issued requests and, on success, the new cache, the
mutated document and the injected `ID`. -/
def update (client : Client) (name : String) (cache : Cache) (doc : PyVal) :
    List Request × Except PyErr (Cache × PyVal × PyVal) :=
  if isDict doc then
    match doc.getd "_id" with
    | .pynone => ([], .error .missingIDError)
    | idval =>
      let doc1 := doc.delKey "_id"
      match cacheGet cache idval with
      | some src =>
        match jsonRoundTrip doc1 with
        | .error e => ([], .error e)
        | .ok pdoc =>
          let p := make_patch src pdoc
          let cache1 := cacheDel cache idval
          match idval with
          | .docid i _ _ ver =>
            match i with
            | .pystr s =>
              let req : Request :=
                { method := "PATCH", path := "/api/docstore/" ++ name ++ "/" ++ s,
                  headers := [("If-Match", ver)], json := none, data := some p }
              match client req with
              | .error e => ([req], .error e)
              | .ok resp => ([req], finishReq cache1 doc1 resp)
            | _ => ([], .error .typeError)
          | _ => ([], .error .attributeError)
      | none =>
        match idval with
        | .docid i _ _ ver =>
          match i with
          | .pystr s =>
            let req : Request :=
              { method := "POST", path := "/api/docstore/" ++ name ++ "/" ++ s,
                headers := [("If-Match", ver)], json := some doc1, data := none }
            match client req with
            | .error e => ([req], .error e)
            | .ok resp => ([req], finishReq cache doc1 resp)
          | _ => ([], .error .typeError)
        | _ => ([], .error .attributeError)
  else ([], .error .attributeError)

/-- `Collection.insert(doc)`: raises `NotADocumentError` on a non-dict;
delegates to `update` when the `"_id"` value is an `ID` instance; otherwise
POSTs the document exactly as given (any non-`ID` `"_id"` entry still in the
body) and finishes with the shared post-response block.  (The source's
`if isinstance(doc, list)` loop at lines 278–280 is dead code — `doc` has
already passed the `isinstance(doc, dict)` guard — and is omitted.) -/
def insert (client : Client) (name : String) (cache : Cache) (doc : PyVal) :
    List Request × Except PyErr (Cache × PyVal × PyVal) :=
  if isDict doc then
    if doc.hasKey "_id" && isDocId (doc.getd "_id") then
      update client name cache doc
    else
      let req : Request :=
        { method := "POST", path := "/api/docstore/" ++ name, headers := [],
          json := some doc, data := none }
      match client req with
      | .error e => ([req], .error e)
      | .ok resp => ([req], finishReq cache doc resp)
  else ([], .error .notADocumentError)

/-- The loop body of `Collection.delete`: extracts the id string of one
entry.  A dict goes through `doc["_id"].id()` (the `KeyError` of a missing
key is caught and re-raised as `MissingIDError`; a non-`ID` value raises
`AttributeError` at `.id()`; a non-string `_id` attribute raises `TypeError`
in the path concatenation), a bare `ID` goes through `.id()`, a string is
used as is, and anything else raises `NotADocumentError`. -/
def deleteDocId (d : PyVal) : Except PyErr String :=
  if isDict d then
    if d.hasKey "_id" then
      match d.getd "_id" with
      | .docid i _ _ _ =>
          match i with
          | .pystr s => .ok s
          | _ => .error .typeError
      | _ => .error .attributeError
    else .error .missingIDError
  else
    match d with
    | .docid i _ _ _ =>
        match i with
        | .pystr s => .ok s
        | _ => .error .typeError
    | .pystr s => .ok s
    | _ => .error .notADocumentError

/-- `Collection.delete(doc_or_docs)`: the local variable `docs` is assigned
only inside `if not isinstance(doc_or_docs, list)`, so a list argument
reaches `for doc in docs` with `docs` unbound and raises
`UnboundLocalError` before any request is issued; a non-list argument is
wrapped in a one-element list, whose single iteration issues one `DELETE`
request. -/
def delete (client : Client) (name : String) (doc_or_docs : PyVal) :
    List Request × Except PyErr Unit :=
  if isList doc_or_docs then ([], .error .unboundLocalError)
  else
    match deleteDocId doc_or_docs with
    | .error e => ([], .error e)
    | .ok s =>
        let req : Request :=
          { method := "DELETE", path := "/api/docstore/" ++ name ++ "/" ++ s,
            headers := [], json := none, data := none }
        match client req with
        | .error e => ([req], .error e)
        | .ok _ => ([req], .ok ())

/-! Equation lemmas.  The equation compiler's automatically generated
equations for the position-indexed recursive functions are prohibitively
expensive to elaborate, so the case equations used by the proofs are stated
here once and proved by `rfl`. -/

/-- Everything except strings, dict nodes and list nodes: the values on
which a `_fill_pointers` visit is a no-op. -/
def isLeaf : PyVal → Bool
  | .pystr _ => false
  | .dcons _ _ _ => false
  | .lcons _ _ => false
  | _ => true

theorem fillVisit_pystr (P : PyVal) (m : Bool) (s : String) :
    fillVisit P m (.pystr s) =
      (if isRef s then
        match P.lookupKey s with
        | some nd => .ok (.attachment s nd)
        | none => .error .keyError
      else .ok (.pystr s)) := by
  cases m <;> rfl

theorem fillVisit_dcons (P : PyVal) (m : Bool) (k : String) (v rest : PyVal) :
    fillVisit P m (.dcons k v rest) =
      (match fillVisit P true v with
      | .error e => .error e
      | .ok v' =>
          match fillVisit P m rest with
          | .error e => .error e
          | .ok rest' => .ok (.dcons k v' rest')) := by
  cases m <;> rfl

theorem fillVisit_lcons_true (P : PyVal) (x rest : PyVal) :
    fillVisit P true (.lcons x rest) =
      (match fillVisit P false x with
      | .error e => .error e
      | .ok x' =>
          match fillVisit P true rest with
          | .error e => .error e
          | .ok rest' => .ok (.lcons x' rest')) := rfl

theorem fillVisit_lcons_false (P : PyVal) (x rest : PyVal) :
    fillVisit P false (.lcons x rest) = .ok (.lcons x rest) := rfl

theorem fillVisit_leaf (P : PyVal) (m : Bool) (v : PyVal) (h : isLeaf v = true) :
    fillVisit P m v = .ok v := by
  cases v <;> simp only [isLeaf] at h <;> cases m <;> first | rfl | cases h

theorem resolvedVisit_pystr (m : Bool) (s : String) :
    resolvedVisit m (.pystr s) = !isRef s := by
  cases m <;> rfl

theorem resolvedVisit_dcons (m : Bool) (k : String) (v rest : PyVal) :
    resolvedVisit m (.dcons k v rest) =
      (resolvedVisit true v && resolvedVisit m rest) := by
  cases m <;> rfl

theorem resolvedVisit_lcons_true (x rest : PyVal) :
    resolvedVisit true (.lcons x rest) =
      (resolvedVisit false x && resolvedVisit true rest) := rfl

theorem resolvedVisit_lcons_false (x rest : PyVal) :
    resolvedVisit false (.lcons x rest) = true := rfl

theorem resolvedVisit_leaf (m : Bool) (v : PyVal) (h : isLeaf v = true) :
    resolvedVisit m v = true := by
  cases v <;> simp only [isLeaf] at h <;> cases m <;> first | rfl | cases h

theorem missingVisit_pystr (P : PyVal) (m : Bool) (s : String) :
    missingVisit P m (.pystr s) = (isRef s && (P.lookupKey s).isNone) := by
  cases m <;> rfl

theorem missingVisit_dcons (P : PyVal) (m : Bool) (k : String) (v rest : PyVal) :
    missingVisit P m (.dcons k v rest) =
      (missingVisit P true v || missingVisit P m rest) := by
  cases m <;> rfl

theorem missingVisit_lcons_true (P : PyVal) (x rest : PyVal) :
    missingVisit P true (.lcons x rest) =
      (missingVisit P false x || missingVisit P true rest) := rfl

theorem missingVisit_lcons_false (P : PyVal) (x rest : PyVal) :
    missingVisit P false (.lcons x rest) = false := rfl

theorem missingVisit_leaf (P : PyVal) (m : Bool) (v : PyVal) (h : isLeaf v = true) :
    missingVisit P m v = false := by
  cases v <;> simp only [isLeaf] at h <;> cases m <;> first | rfl | cases h

/-! Behaviour of a `_fill_pointers` visit, by structural induction. -/

/-- A successful visit leaves every visited position resolved, and a second
visit of the result succeeds and changes nothing. -/
theorem fillVisit_ok (P : PyVal) : ∀ (v : PyVal) (m : Bool) (r : PyVal),
    fillVisit P m v = .ok r → resolvedVisit m r = true ∧ fillVisit P m r = .ok r := by
  intro v
  induction v with
  | pystr s =>
      intro m r h
      rw [fillVisit_pystr] at h
      cases hs : isRef s with
      | true =>
          rw [hs] at h
          simp only [if_true] at h
          cases hl : P.lookupKey s with
          | none => rw [hl] at h; cases h
          | some nd =>
              rw [hl] at h
              cases h
              exact ⟨resolvedVisit_leaf m _ rfl, fillVisit_leaf P m _ rfl⟩
      | false =>
          rw [hs] at h
          simp only [Bool.false_eq_true, if_false] at h
          cases h
          refine ⟨?_, ?_⟩
          · rw [resolvedVisit_pystr, hs]; rfl
          · rw [fillVisit_pystr, hs]; simp
  | dcons k v rest ihv ihr =>
      intro m r h
      rw [fillVisit_dcons] at h
      cases hv : fillVisit P true v with
      | error e => rw [hv] at h; cases h
      | ok v' =>
          rw [hv] at h
          cases hr : fillVisit P m rest with
          | error e => rw [hr] at h; cases h
          | ok rest' =>
              rw [hr] at h
              cases h
              obtain ⟨rv, iv⟩ := ihv true v' hv
              obtain ⟨rr, ir⟩ := ihr m rest' hr
              refine ⟨?_, ?_⟩
              · rw [resolvedVisit_dcons, rv, rr]; rfl
              · rw [fillVisit_dcons, iv, ir]
  | lcons x rest ihx ihr =>
      intro m r h
      cases m with
      | true =>
          rw [fillVisit_lcons_true] at h
          cases hx : fillVisit P false x with
          | error e => rw [hx] at h; cases h
          | ok x' =>
              rw [hx] at h
              cases hr : fillVisit P true rest with
              | error e => rw [hr] at h; cases h
              | ok rest' =>
                  rw [hr] at h
                  cases h
                  obtain ⟨rx, ix⟩ := ihx false x' hx
                  obtain ⟨rr, ir⟩ := ihr true rest' hr
                  refine ⟨?_, ?_⟩
                  · rw [resolvedVisit_lcons_true, rx, rr]; rfl
                  · rw [fillVisit_lcons_true, ix, ir]
      | false =>
          rw [fillVisit_lcons_false] at h
          cases h
          exact ⟨resolvedVisit_lcons_false x rest, fillVisit_lcons_false P x rest⟩
  | pynone =>
      intro m r h
      rw [fillVisit_leaf P m (.pynone) rfl] at h
      cases h
      exact ⟨resolvedVisit_leaf m (.pynone) rfl, fillVisit_leaf P m (.pynone) rfl⟩
  | pybool b =>
      intro m r h
      rw [fillVisit_leaf P m (.pybool b) rfl] at h
      cases h
      exact ⟨resolvedVisit_leaf m (.pybool b) rfl, fillVisit_leaf P m (.pybool b) rfl⟩
  | pyint n =>
      intro m r h
      rw [fillVisit_leaf P m (.pyint n) rfl] at h
      cases h
      exact ⟨resolvedVisit_leaf m (.pyint n) rfl, fillVisit_leaf P m (.pyint n) rfl⟩
  | dnil =>
      intro m r h
      rw [fillVisit_leaf P m (.dnil) rfl] at h
      cases h
      exact ⟨resolvedVisit_leaf m (.dnil) rfl, fillVisit_leaf P m (.dnil) rfl⟩
  | lnil =>
      intro m r h
      rw [fillVisit_leaf P m (.lnil) rfl] at h
      cases h
      exact ⟨resolvedVisit_leaf m (.lnil) rfl, fillVisit_leaf P m (.lnil) rfl⟩
  | attachment p nd ih =>
      intro m r h
      rw [fillVisit_leaf P m (.attachment p nd) rfl] at h
      cases h
      exact ⟨resolvedVisit_leaf m (.attachment p nd) rfl, fillVisit_leaf P m (.attachment p nd) rfl⟩
  | docid a b c d iha ihb ihc ihd =>
      intro m r h
      rw [fillVisit_leaf P m (.docid a b c d) rfl] at h
      cases h
      exact ⟨resolvedVisit_leaf m (.docid a b c d) rfl, fillVisit_leaf P m (.docid a b c d) rfl⟩

/-- A visit raises `KeyError` exactly when some visited position holds a
token that is absent from the side-table; otherwise it succeeds. -/
theorem fillVisit_err (P : PyVal) : ∀ (v : PyVal) (m : Bool),
    (missingVisit P m v = true → fillVisit P m v = .error .keyError) ∧
    (missingVisit P m v = false → ∃ r, fillVisit P m v = .ok r) := by
  intro v
  induction v with
  | pystr s =>
      intro m
      rw [missingVisit_pystr, fillVisit_pystr]
      cases hs : isRef s with
      | true =>
          simp only [Bool.true_and, if_true]
          cases hl : P.lookupKey s with
          | none => exact ⟨fun _ => rfl, by simp⟩
          | some nd => exact ⟨by simp, fun _ => ⟨_, rfl⟩⟩
      | false =>
          simp only [Bool.false_and, Bool.false_eq_true, if_false]
          exact ⟨by simp, fun _ => ⟨_, rfl⟩⟩
  | dcons k v rest ihv ihr =>
      intro m
      rw [missingVisit_dcons, fillVisit_dcons]
      refine ⟨?_, ?_⟩
      · intro h
        rcases Bool.or_eq_true_iff.mp h with hv | hr
        · rw [(ihv true).1 hv]
        · cases hfv : fillVisit P true v with
          | error e =>
              cases hmv : missingVisit P true v with
              | true => rw [(ihv true).1 hmv] at hfv; cases hfv; rfl
              | false =>
                  obtain ⟨r, hr'⟩ := (ihv true).2 hmv
                  rw [hr'] at hfv; cases hfv
          | ok v' => rw [(ihr m).1 hr]
      · intro h
        rcases Bool.or_eq_false_iff.mp h with ⟨hv, hr⟩
        obtain ⟨v', hv'⟩ := (ihv true).2 hv
        obtain ⟨rest', hr'⟩ := (ihr m).2 hr
        rw [hv', hr']
        exact ⟨_, rfl⟩
  | lcons x rest ihx ihr =>
      intro m
      cases m with
      | true =>
          rw [missingVisit_lcons_true, fillVisit_lcons_true]
          refine ⟨?_, ?_⟩
          · intro h
            rcases Bool.or_eq_true_iff.mp h with hx | hr
            · rw [(ihx false).1 hx]
            · cases hfx : fillVisit P false x with
              | error e =>
                  cases hmx : missingVisit P false x with
                  | true => rw [(ihx false).1 hmx] at hfx; cases hfx; rfl
                  | false =>
                      obtain ⟨r, hr'⟩ := (ihx false).2 hmx
                      rw [hr'] at hfx; cases hfx
              | ok x' => rw [(ihr true).1 hr]
          · intro h
            rcases Bool.or_eq_false_iff.mp h with ⟨hx, hr⟩
            obtain ⟨x', hx'⟩ := (ihx false).2 hx
            obtain ⟨rest', hr'⟩ := (ihr true).2 hr
            rw [hx', hr']
            exact ⟨_, rfl⟩
      | false =>
          rw [missingVisit_lcons_false, fillVisit_lcons_false]
          exact ⟨by simp, fun _ => ⟨_, rfl⟩⟩
  | pynone =>
      intro m
      rw [missingVisit_leaf P m (.pynone) rfl, fillVisit_leaf P m (.pynone) rfl]
      exact ⟨by simp, fun _ => ⟨_, rfl⟩⟩
  | pybool b =>
      intro m
      rw [missingVisit_leaf P m (.pybool b) rfl, fillVisit_leaf P m (.pybool b) rfl]
      exact ⟨by simp, fun _ => ⟨_, rfl⟩⟩
  | pyint n =>
      intro m
      rw [missingVisit_leaf P m (.pyint n) rfl, fillVisit_leaf P m (.pyint n) rfl]
      exact ⟨by simp, fun _ => ⟨_, rfl⟩⟩
  | dnil =>
      intro m
      rw [missingVisit_leaf P m (.dnil) rfl, fillVisit_leaf P m (.dnil) rfl]
      exact ⟨by simp, fun _ => ⟨_, rfl⟩⟩
  | lnil =>
      intro m
      rw [missingVisit_leaf P m (.lnil) rfl, fillVisit_leaf P m (.lnil) rfl]
      exact ⟨by simp, fun _ => ⟨_, rfl⟩⟩
  | attachment p nd ih =>
      intro m
      rw [missingVisit_leaf P m (.attachment p nd) rfl, fillVisit_leaf P m (.attachment p nd) rfl]
      exact ⟨by simp, fun _ => ⟨_, rfl⟩⟩
  | docid a b c d iha ihb ihc ihd =>
      intro m
      rw [missingVisit_leaf P m (.docid a b c d) rfl, fillVisit_leaf P m (.docid a b c d) rfl]
      exact ⟨by simp, fun _ => ⟨_, rfl⟩⟩

/-! The request shapes the `Collection` operations issue, named so that the
theorems below can display them. -/

/-- The full-body create-or-replace request of `Collection.update`'s
no-baseline branch: `POST /api/docstore/<name>/<id>` with the
`If-Match: <version>` precondition header and the body as structured
JSON. -/
def postFullBody (name s : String) (ver body : PyVal) : Request :=
  { method := "POST", path := "/api/docstore/" ++ name ++ "/" ++ s,
    headers := [("If-Match", ver)], json := some body, data := none }

/-- The diff request of `Collection.update`'s baseline branch:
`PATCH /api/docstore/<name>/<id>` with the `If-Match: <version>`
precondition header and the serialized JSON-Patch operations as the raw
body. -/
def patchDiff (name s : String) (ver : PyVal) (p : List PatchOp) : Request :=
  { method := "PATCH", path := "/api/docstore/" ++ name ++ "/" ++ s,
    headers := [("If-Match", ver)], json := none, data := some p }

/-- The fresh-insert request of `Collection.insert`:
`POST /api/docstore/<name>` with the document as the structured body and no
precondition header. -/
def postInsert (name : String) (body : PyVal) : Request :=
  { method := "POST", path := "/api/docstore/" ++ name, headers := [],
    json := some body, data := none }

/-! Concrete fixtures used by the closed counterexamples and witnesses. -/

/-- A reference token. -/
def refTok : String := "@filetree/ref:x"

/-- A second reference token. -/
def refTok2 : String := "@filetree/ref:y"

/-- A raw node description as it would arrive in a response side-table. -/
def nodeDesc : PyVal := .dcons "name" (.pystr "file.txt") .dnil

/-- A side-table holding `refTok`. -/
def sideTable : PyVal := .dcons refTok nodeDesc .dnil

/-- A document whose reference token sits inside a list nested in a list. -/
def listListDoc : PyVal :=
  .dcons "k" (.lcons (.lcons (.pystr refTok) .lnil) .lnil) .dnil

/-- A second document with a token inside a list nested in a list. -/
def listListDoc2 : PyVal :=
  .dcons "m" (.lcons (.lcons (.pystr refTok2) .lnil) .lnil) .dnil

/-- An `ID` for document id `"1"` at version `"v1"`. -/
def docIdV1 : PyVal := .docid (.pystr "1") .pynone .pynone (.pystr "v1")

/-- An `ID` for the same document id `"1"` at version `"v2"`. -/
def docIdV2 : PyVal := .docid (.pystr "1") .pynone .pynone (.pystr "v2")

/-- An attachment handle as `_fill_pointers` builds it. -/
def attA : PyVal := .attachment refTok nodeDesc

/-- A cached baseline body containing that attachment handle (the state
after fetching a document with an attachment and checkpointing it). -/
def baselineA : PyVal := .dcons "a" attA .dnil

/-- The same document body, tracked, with its `ID`. -/
def docWithAtt : PyVal := .dcons "a" attA (.dcons "_id" docIdV1 .dnil)

/-- The cache holding `baselineA` for `docIdV1`. -/
def cacheWithBaseline : Cache := [(docIdV1, baselineA)]

/-- A server response assigning id `"1"` and version `"v2"`. -/
def okResponse : PyVal :=
  .dcons "_id" (.pystr "1") (.dcons "_version" (.pystr "v2") .dnil)

/-- A transport that answers every request with `okResponse`. -/
def okClient : Client := fun _ => .ok okResponse

/-- A transport that rejects the optimistic-concurrency precondition of a
`PATCH` with HTTP status 412, as an opaque transport error — the only form
in which the embedded module can see a precondition failure. -/
def conflictClient : Client := fun r =>
  if r.method = "PATCH" then .error (.transportError 412) else .ok okResponse

/-! The claims. -/

/-- C2: for a tracked document whose id has no baseline entry in the cache,
`Collection.update` submits the full current body (the document minus its
`"_id"` entry) as a create-or-replace `POST`, computes no diff, and sends
the document's version as the `If-Match` optimistic-concurrency
precondition — the same precondition as the diff path. -/
theorem update_no_baseline (client : Client) (name : String) (cache : Cache)
    (doc : PyVal) (cr up ver : PyVal) (s : String)
    (hdict : isDict doc = true)
    (hid : doc.getd "_id" = .docid (.pystr s) cr up ver)
    (hmiss : cacheGet cache (.docid (.pystr s) cr up ver) = none) :
    update client name cache doc =
      (match client (postFullBody name s ver (doc.delKey "_id")) with
        | .error e => ([postFullBody name s ver (doc.delKey "_id")], .error e)
        | .ok resp => ([postFullBody name s ver (doc.delKey "_id")],
            finishReq cache (doc.delKey "_id") resp)) := by
  unfold update postFullBody
  simp only [hdict, if_true, hid, hmiss]

/-- Witness for C2: updating a fetched attachment-bearing document with an
empty cache issues exactly the full-body `POST` under `If-Match: v1` and
reseeds the cache from the response. -/
theorem update_no_baseline_witness :
    update okClient "c" [] docWithAtt =
      ([postFullBody "c" "1" (.pystr "v1") (docWithAtt.delKey "_id")],
        .ok ([(docIdV2, .dcons "a" attA .dnil)],
          .dcons "a" attA (.dcons "_id" docIdV2 .dnil), docIdV2)) :=
  (update_no_baseline okClient "c" [] docWithAtt .pynone .pynone (.pystr "v1")
    "1" (by decide) (by decide) (by decide)).trans (by decide)

/-- C9: `Collection.delete` given any list raises `UnboundLocalError`
before issuing a single request: its local variable `docs` is assigned only
in the branch taken by non-list arguments, yet the deletion loop iterates
over `docs`. -/
theorem delete_list_unbound (client : Client) (name : String) (v : PyVal)
    (h : isList v = true) :
    delete client name v = ([], .error .unboundLocalError) := by
  unfold delete
  simp only [h, if_true]

/-- Witness for C9: deleting a (even empty) list of documents raises
`UnboundLocalError` with no request issued. -/
theorem delete_list_unbound_witness :
    delete okClient "c" (.lcons docWithAtt .lnil) =
      ([], .error .unboundLocalError) :=
  delete_list_unbound okClient "c" (.lcons docWithAtt .lnil) (by decide)

/-- C8 counterexample: `Collection.update` applied to a non-mapping raises
`AttributeError` (the argument has no `.get` attribute), not the
`NotADocumentError` the claim promises for both operations. -/
theorem update_non_mapping_counterexample :
    update okClient "c" [] (.pystr "nope") = ([], .error .attributeError) ∧
    PyErr.attributeError ≠ PyErr.notADocumentError := by
  refine ⟨by decide, by decide⟩

/-- C8 as amended: `Collection.insert` rejects every non-mapping argument
with `NotADocumentError`, but `Collection.update` performs no such
validation — a non-mapping argument fails with an uncaught
`AttributeError` at `doc.get("_id")`. -/
theorem insert_update_non_mapping (client : Client) (name : String)
    (cache : Cache) (v : PyVal) (h : isDict v = false) :
    insert client name cache v = ([], .error .notADocumentError) ∧
    update client name cache v = ([], .error .attributeError) := by
  constructor
  · unfold insert
    simp only [h, Bool.false_eq_true, if_false]
  · unfold update
    simp only [h, Bool.false_eq_true, if_false]

/-- Witness for C8 as amended: a bare string is rejected by `insert` with
`NotADocumentError` and crashes `update` with `AttributeError`. -/
theorem insert_update_non_mapping_witness :
    insert okClient "c" [] (.pystr "oops") = ([], .error .notADocumentError) ∧
    update okClient "c" [] (.pystr "oops") = ([], .error .attributeError) :=
  insert_update_non_mapping okClient "c" [] (.pystr "oops") (by decide)

/-- C10: `Collection.insert` routes to `update` only when the `"_id"` value
is an actual `ID` instance; a mapping with any other `"_id"` value is
POSTed as a fresh insert, with the `"_id"` key still present in the request
body. -/
theorem insert_non_id_posts_fresh (client : Client) (name : String)
    (cache : Cache) (doc : PyVal)
    (hdict : isDict doc = true)
    (hkey : doc.hasKey "_id" = true)
    (hnid : isDocId (doc.getd "_id") = false) :
    insert client name cache doc =
      (match client (postInsert name doc) with
        | .error e => ([postInsert name doc], .error e)
        | .ok resp => ([postInsert name doc], finishReq cache doc resp)) := by
  unfold insert postInsert
  simp only [hdict, if_true, hkey, hnid, Bool.and_false, Bool.false_eq_true,
    if_false]

/-- Witness for C10: inserting `{"_id": "raw", "x": 1}` issues a fresh
`POST` whose body still carries the `"_id"` key, rather than routing to
`update`. -/
theorem insert_non_id_posts_fresh_witness :
    insert okClient "c" [] (.dcons "_id" (.pystr "raw") (.dcons "x" (.pyint 1) .dnil)) =
      ([postInsert "c" (.dcons "_id" (.pystr "raw") (.dcons "x" (.pyint 1) .dnil))],
        .ok ([(docIdV2, .dcons "x" (.pyint 1) .dnil)],
          .dcons "_id" docIdV2 (.dcons "x" (.pyint 1) .dnil), docIdV2)) :=
  (insert_non_id_posts_fresh okClient "c" []
    (.dcons "_id" (.pystr "raw") (.dcons "x" (.pyint 1) .dnil))
    (by decide) (by decide) (by decide)).trans (by decide)

/-- C1 counterexample: a baseline holding an attachment handle, with the
current body holding the same handle.  Under the claim's description — both
baseline and current body serialized through the attachment-handle encoding
before diffing — the payload would be the empty diff, but the code encodes
only the current body and diffs it against the baseline as stored, so the
issued `PATCH` carries a spurious `replace` of the attachment by its token
string. -/
theorem update_baseline_not_reencoded_counterexample :
    cacheGet cacheWithBaseline (docWithAtt.getd "_id") = some baselineA ∧
    (update okClient "c" cacheWithBaseline docWithAtt).1 =
      [patchDiff "c" "1" (.pystr "v1") [.replace "/a" (.pystr refTok)]] ∧
    specDiffPayload baselineA (docWithAtt.delKey "_id") = .ok [] := by
  refine ⟨by decide, by decide, by decide⟩

/-- C1 as amended: for a tracked document whose id has a baseline entry,
`Collection.update` serializes only the current body through the
attachment-handle encoding (the `JSONEncoder` round trip), computes the
structural diff from the baseline exactly as stored in the cache to that
encoded body, discards the baseline entry, and submits the diff as a
`PATCH` whose `If-Match` header carries the document's version. -/
theorem update_with_baseline (client : Client) (name : String) (cache : Cache)
    (doc : PyVal) (cr up ver : PyVal) (s : String) (src pdoc : PyVal)
    (hdict : isDict doc = true)
    (hid : doc.getd "_id" = .docid (.pystr s) cr up ver)
    (hsrc : cacheGet cache (.docid (.pystr s) cr up ver) = some src)
    (hrt : jsonRoundTrip (doc.delKey "_id") = .ok pdoc) :
    update client name cache doc =
      (match client (patchDiff name s ver (make_patch src pdoc)) with
        | .error e => ([patchDiff name s ver (make_patch src pdoc)], .error e)
        | .ok resp => ([patchDiff name s ver (make_patch src pdoc)],
            finishReq (cacheDel cache (.docid (.pystr s) cr up ver))
              (doc.delKey "_id") resp)) := by
  unfold update patchDiff
  simp only [hdict, if_true, hid, hsrc, hrt]

/-- Witness for C1 as amended: the attachment-bearing update issues exactly
one `PATCH` under `If-Match: v1` carrying the diff of the stored baseline
against the encoded body, and reseeds the cache from the response. -/
theorem update_with_baseline_witness :
    update okClient "c" cacheWithBaseline docWithAtt =
      ([patchDiff "c" "1" (.pystr "v1")
          (make_patch baselineA (.dcons "a" (.pystr refTok) .dnil))],
        .ok ([(docIdV2, .dcons "a" attA .dnil)],
          .dcons "a" attA (.dcons "_id" docIdV2 .dnil), docIdV2)) :=
  (update_with_baseline okClient "c" cacheWithBaseline docWithAtt
    .pynone .pynone (.pystr "v1") "1" baselineA (.dcons "a" (.pystr refTok) .dnil)
    (by decide) (by decide) (by decide) (by decide)).trans (by decide)

/-- C3: when the server rejects the optimistic-concurrency precondition of
the diff `PATCH` (HTTP 412), `Collection.update` propagates the transport
collaborator's opaque error unchanged — the module defines no distinct
`VersionConflict` condition (`PyErr` has no such constructor because the
source has no such class), and the source's own
`# FIXME(tsileo): catch status 412` marks the missing handling. -/
theorem update_conflict_is_generic_transport_error :
    update conflictClient "c" cacheWithBaseline docWithAtt =
      ([patchDiff "c" "1" (.pystr "v1") [.replace "/a" (.pystr refTok)]],
        .error (.transportError 412)) := by
  decide

/-- C4 counterexample: a side-table containing every token referenced by
the document, yet resolution returns the document unchanged, with the
reference token still present as a raw string — because the token sits
inside a list nested within a list, which `_fill_pointers` never enters. -/
theorem fill_pointers_nested_list_counterexample :
    sideTable.hasKey refTok = true ∧
    fill_pointers sideTable listListDoc = .ok listListDoc ∧
    containsRef listListDoc = true := by
  refine ⟨by decide, by decide, by decide⟩

/-- C4 as amended: a successful resolution replaces every reference-token
string in the positions `_fill_pointers` visits — dict values at any
dict-recursion depth and elements of dict-valued lists — while tokens
inside a list nested within a list are left as raw strings; and resolution
is idempotent: running it again on the resolved tree succeeds and yields
the same tree. -/
theorem fill_pointers_resolved_idempotent (P d r : PyVal)
    (h : fill_pointers P d = .ok r) :
    docResolved r = true ∧ fill_pointers P r = .ok r := by
  unfold fill_pointers at h
  cases hd : isDict d with
  | true =>
      rw [hd] at h
      simp only [if_true] at h
      obtain ⟨h1, h2⟩ := fillVisit_ok P d true r h
      constructor
      · unfold docResolved
        cases hr : isDict r <;> simp [h1]
      · unfold fill_pointers
        cases hr : isDict r <;> simp [h2]
  | false =>
      rw [hd] at h
      simp only [Bool.false_eq_true, if_false] at h
      cases h
      constructor
      · unfold docResolved
        rw [hd]
        simp
      · unfold fill_pointers
        rw [hd]
        simp

/-- Witness for C4 as amended: resolving a document with a token as a dict
value, a token as a list element and a token inside a nested dict yields a
fully visited-resolved tree on which resolution is idempotent. -/
theorem fill_pointers_resolved_idempotent_witness :
    docResolved (.dcons "a" attA (.dcons "l" (.lcons attA
        (.lcons (.dcons "b" attA .dnil) .lnil)) .dnil)) = true ∧
    fill_pointers sideTable (.dcons "a" attA (.dcons "l" (.lcons attA
        (.lcons (.dcons "b" attA .dnil) .lnil)) .dnil)) =
      .ok (.dcons "a" attA (.dcons "l" (.lcons attA
        (.lcons (.dcons "b" attA .dnil) .lnil)) .dnil)) :=
  fill_pointers_resolved_idempotent sideTable
    (.dcons "a" (.pystr refTok) (.dcons "l" (.lcons (.pystr refTok)
      (.lcons (.dcons "b" (.pystr refTok) .dnil) .lnil)) .dnil))
    (.dcons "a" attA (.dcons "l" (.lcons attA
      (.lcons (.dcons "b" attA .dnil) .lnil)) .dnil))
    (by decide)

/-- C5 counterexample: a document containing a reference token that the
side-table (here empty) lacks, yet resolution does not fail — it returns
the tree unchanged, token still unresolved, because the token sits inside a
list nested within a list, a position the resolver never visits. -/
theorem fill_pointers_missing_token_counterexample :
    containsRef listListDoc2 = true ∧
    PyVal.lookupKey .dnil refTok2 = none ∧
    fill_pointers .dnil listListDoc2 = .ok listListDoc2 := by
  refine ⟨by decide, by decide, by decide⟩

/-- C5 as amended: pointer resolution fails with `KeyError` (Python's
`LookupError` subclass) precisely when some position that `_fill_pointers`
visits — a dict value at any dict depth or an element of a dict-valued
list — holds a reference token with no side-table entry; a missing token in
an unvisited position (inside a list nested within a list) raises
nothing. -/
theorem fill_pointers_keyError_iff (P d : PyVal) :
    fill_pointers P d = .error .keyError ↔ docMissing P d = true := by
  unfold fill_pointers docMissing
  cases hd : isDict d with
  | true =>
      simp only [if_true]
      constructor
      · intro h
        cases hm : missingVisit P true d with
        | true => rfl
        | false =>
            obtain ⟨r, hr⟩ := (fillVisit_err P d true).2 hm
            rw [hr] at h
            cases h
      · intro h
        exact (fillVisit_err P d true).1 h
  | false =>
      simp only [Bool.false_eq_true, if_false]
      constructor
      · intro h
        cases h
      · intro h
        cases h

/-- C6: once the cache holds an entry under a tracked document's `"_id"`
value, a further `checkpoint` — explicit, or triggered through
`__setitem__` by a mutation of any key — leaves the cache, and hence that
baseline entry, exactly as it is: the baseline is never overwritten by
later local edits. -/
theorem checkpoint_keeps_existing_baseline (cache : Cache)
    (doc idval : PyVal) (key : String) (val : PyVal)
    (hid : doc.getd "_id" = idval) (hnn : idval ≠ .pynone)
    (hhas : cacheHas cache idval = true) :
    checkpoint cache doc = .ok cache ∧
    docSetItem cache doc key val = .ok (cache, doc.setKey key val) := by
  have hcp : checkpoint cache doc = .ok cache := by
    unfold checkpoint
    rw [hid]
    cases idval <;> first | exact absurd rfl hnn | simp [hhas]
  refine ⟨hcp, ?_⟩
  unfold docSetItem
  rw [hcp]
  split <;> rfl

/-- Witness for C6: with the attachment-bearing baseline cached, an
explicit checkpoint and a mutation of key `"a"` both leave the cache
entry untouched. -/
theorem checkpoint_keeps_existing_baseline_witness :
    checkpoint cacheWithBaseline docWithAtt = .ok cacheWithBaseline ∧
    docSetItem cacheWithBaseline docWithAtt "a" (.pystr "edited") =
      .ok (cacheWithBaseline, docWithAtt.setKey "a" (.pystr "edited")) :=
  checkpoint_keeps_existing_baseline cacheWithBaseline docWithAtt docIdV1
    "a" (.pystr "edited") (by decide) (by decide) (by decide)

/-- C7 counterexample: a baseline checkpointed under the Identity
`(id "1", version "v1")` is not found when looked up under the Identity
`(id "1", version "v2")` — same id, different version — refuting the claim
that the cache is keyed by the document id alone. -/
theorem baseline_version_keyed_counterexample :
    checkpoint [] docWithAtt = .ok [(docIdV1, baselineA)] ∧
    cacheGet [(docIdV1, baselineA)] docIdV2 = none := by
  refine ⟨by decide, by decide⟩

/-- C7 as amended: `_DOC_CACHE` entries are keyed by the full Identity —
`ID.__hash__`/`ID.__eq__` compare the pair `(version, id)` — so a baseline
stored under one Identity is found under another exactly when both the
version and the id match. -/
theorem baseline_cache_keyed_by_version_and_id (body : PyVal)
    (i1 c1 u1 v1 i2 c2 u2 v2 : PyVal) :
    cacheGet [(.docid i1 c1 u1 v1, body)] (.docid i2 c2 u2 v2) =
      (if v1 = v2 ∧ i1 = i2 then some body else none) := by
  by_cases hv : v1 = v2 <;> by_cases hi : i1 = i2 <;>
    simp [cacheGet, pyKeyEq, hv, hi]

end Docstore
